import Mathlib

/-!
Verification of the graph-construction layer of the C-PAC repository
(`CPAC/seg_preproc/seg_preproc.py`, `CPAC/sca/sca.py`) and of the GUI
model-configuration serializer/validator
(`CPAC/GUI/interface/utils/modelconfig_window.py`), via a shallow
embedding in Lean 4.

The pipeline builders are declarative: each creates nipype nodes
(`pe.Node` / `pe.MapNode`) and records directed port-to-port edges with
`workflow.connect`.  We embed a node as a record of its name, wrapped
tool interface, construction-time parameter assignments, MapNode flag
and iterated-input list, and a graph as the list of nodes created by the
builder together with the list of edges in the order the source issues
`connect` calls.  `clone` in nipype copies a node under a new name; we
embed it as a functional record update.
-/

set_option maxRecDepth 100000

namespace CPAC

/-- One nipype node as created by the builders: `name` is the string
passed as `name=`, `tool` the wrapped interface (e.g. `fsl.FAST`),
`fields` the field list of an `IdentityInterface` (empty otherwise),
`params` the construction-time `node.inputs.x = v` assignments, and
`iterfield` the iterated input ports of a `pe.MapNode`
(`isMapNode = true`). -/
structure PNode where
  name : String
  tool : String
  fields : List String
  params : List (String × String)
  isMapNode : Bool
  iterfield : List String
deriving Repr, DecidableEq

/-- Clone semantics of `node.clone(new_name)`: same interface,
parameters and iterfield under a fresh name. -/
def PNode.clone (n : PNode) (newName : String) : PNode :=
  { n with name := newName }

/-- One `workflow.connect(src, srcPort-or-(srcPort, fn), dst, dstPort)`
call: a directed binding from an output port to an input port,
optionally through a pure transform function recorded by name. -/
structure PEdge where
  src : String
  srcPort : String
  xform : Option String
  dst : String
  dstPort : String
deriving Repr, DecidableEq

/-- A built workflow: its name, every node object the builder creates
(in creation order), and every connect call (in source order). -/
structure PGraph where
  gname : String
  nodes : List PNode
  edges : List PEdge
deriving Repr, DecidableEq

/-- Edges whose destination is input port `p` of node `n`. -/
def edgesIntoPort (g : PGraph) (n p : String) : List PEdge :=
  g.edges.filter (fun e => e.dst == n && e.dstPort == p)

/-- Edges whose destination node is `n` (any port). -/
def edgesIntoNode (g : PGraph) (n : String) : List PEdge :=
  g.edges.filter (fun e => e.dst == n)

/-- Edges whose source node is `n` (any port). -/
def edgesFromNode (g : PGraph) (n : String) : List PEdge :=
  g.edges.filter (fun e => e.src == n)

/-- Direct successors of node `n` in the data-dependency graph. -/
def succsOf (g : PGraph) (n : String) : List String :=
  (edgesFromNode g n).map (fun e => e.dst)

/-- Fuel-bounded forward closure: all nodes reachable from the
accumulator along edges. -/
def reachAux (g : PGraph) : Nat → List String → List String
  | 0, acc => acc
  | k + 1, acc =>
      let nxt := (acc.flatMap (succsOf g)).filter (fun m => !(acc.contains m))
      if nxt.isEmpty then acc else reachAux g k (acc ++ nxt.dedup)

/-- Nodes reachable from `n` (including `n` itself). -/
def reachableFrom (g : PGraph) (n : String) : List String :=
  reachAux g (g.edges.length + 1) [n]

/-- Node `a` is upstream of `b`: some directed path (of length at least
one when `a` differs from `b`) leads from `a` to `b`. -/
def isUpstream (g : PGraph) (a b : String) : Bool :=
  (reachableFrom g a).contains b

/-- Lengths (in edges) of every directed path from `a` to `b`,
enumerated with fuel; on the acyclic builder graphs fuel equal to the
node count is exhaustive. -/
def pathLensAux (g : PGraph) : Nat → String → String → List Nat
  | 0, a, b => if a == b then [0] else []
  | k + 1, a, b =>
      if a == b then [0]
      else ((edgesFromNode g a).flatMap
              (fun e => (pathLensAux g k e.dst b).map (fun l => l + 1)))

/-- All path lengths from `a` to `b` in `g`. -/
def pathLens (g : PGraph) (a b : String) : List Nat :=
  pathLensAux g (g.nodes.length + 1) a b

/-- The destination (node, port) pairs of all edges of `g`, used to
state the single-writer invariant. -/
def destPorts (g : PGraph) : List (String × String) :=
  g.edges.map (fun e => (e.dst, e.dstPort))

/-- Single-writer check: no input port of any node receives two
incoming edges. -/
def singleWriter (g : PGraph) : Bool :=
  decide (destPorts g).Nodup

/-- Plain edge `(src, srcPort) → (dst, dstPort)`, no transform. -/
def pe1 (s sp d dp : String) : PEdge := ⟨s, sp, none, d, dp⟩

/-- Edge through a pure transform function, recorded by name:
`connect(src, (srcPort, fn), dst, dstPort)`. -/
def pe2 (s sp fn d dp : String) : PEdge := ⟨s, sp, some fn, d, dp⟩

/-- A `pe.Node(util.IdentityInterface(fields=...), name=...)`. -/
def idNode (nm : String) (fs : List String) : PNode :=
  ⟨nm, "IdentityInterface", fs, [], false, []⟩

namespace SegPreproc

/-! Embedding of `create_seg_preproc` from
`CPAC/seg_preproc/seg_preproc.py` (lines 300-543), node by node and
connect call by connect call. -/

def inputNode : PNode :=
  idNode "inputspec"
    ["preprocessed_mask", "brain", "standard_res_brain", "example_func",
     "highres2example_func_mat", "stand2highres_warp",
     "PRIOR_CSF", "PRIOR_GRAY", "PRIOR_WHITE"]

def inputnode_csf_threshold : PNode := idNode "csf_threshold" ["csf_threshold"]

def inputnode_wm_threshold : PNode := idNode "wm_threshold" ["wm_threshold"]

def inputnode_gm_threshold : PNode := idNode "gm_threshold" ["gm_threshold"]

def outputNode : PNode :=
  idNode "outputspec"
    ["csf_t12func", "csf_mni2func", "csf_combo", "csf_bin", "csf_mask",
     "gm_t12func", "gm_mni2func", "gm_combo", "gm_bin", "gm_mask",
     "global_mask", "wm_t12func", "wm_mni2func", "wm_combo", "wm_bin",
     "probability_maps", "mixeltype", "partial_volume_map",
     "partial_volume_files", "wm_mask"]

def segment : PNode :=
  ⟨"segment", "fsl.FAST", [],
   [("img_type", "1"), ("segments", "True"), ("probability_maps", "True"),
    ("out_basename", "segment")], false, []⟩

def csf_t1_to_native : PNode :=
  ⟨"csf_t1_to_native", "fsl.FLIRT", [], [("apply_xfm", "True")],
   true, ["reference", "in_matrix_file"]⟩

def csf_mni_to_native : PNode :=
  ⟨"csf_mni_to_native", "fsl.ApplyWarp", [], [("interp", "nn")],
   true, ["ref_file", "postmat"]⟩

def wm_mni_to_native : PNode := csf_mni_to_native.clone "wm_mni_to_native"

def overlap_csf_with_prior : PNode :=
  ⟨"overlap_csf_with_prior", "fsl.MultiImageMaths", [],
   [("op_string", "-mas %s ")], true, ["in_file", "operand_files"]⟩

def binarize_threshold_csf : PNode :=
  ⟨"binarize_threshold_csf", "fsl.ImageMaths", [], [], true, ["in_file"]⟩

def csf_mask : PNode :=
  ⟨"csf_mask", "fsl.MultiImageMaths", [],
   [("op_string", "-mas %s ")], true, ["in_file", "operand_files"]⟩

def overlap_wm_with_prior : PNode :=
  ⟨"overlap_wm_with_prior", "fsl.MultiImageMaths", [],
   [("op_string", "-mas %s ")], true, ["in_file", "operand_files"]⟩

def binarize_threshold_wm : PNode :=
  ⟨"binarize_threshold_wm", "fsl.ImageMaths", [], [], true, ["in_file"]⟩

def wm_t1_to_native : PNode :=
  ⟨"wm_t1_to_native", "fsl.FLIRT", [], [("apply_xfm", "True")],
   true, ["reference", "in_matrix_file"]⟩

def wm_mask : PNode := csf_mask.clone "wm_mask"

def gm_t1_to_native : PNode := wm_t1_to_native.clone "gm_t1_to_native"

def binarize_threshold_gm : PNode :=
  binarize_threshold_csf.clone "binarize_threshold_gm"

def gm_mni_to_native : PNode := wm_mni_to_native.clone "gm_mni_to_native"

def overlap_gm_with_prior : PNode :=
  overlap_wm_with_prior.clone "overlap_gm_with_prior"

def gm_mask : PNode := csf_mask.clone "gm_mask"

end SegPreproc

/-- The workflow built by `create_seg_preproc()`: every node created in
the function body (creation order) and every `preproc.connect(...)`
call (source order); `pick_wm_0`, `pick_wm_2`, `pick_wm_1` and
`form_threshold_string` are the transform functions the source passes
as `(port, fn)` pairs. -/
def createSegPreproc : PGraph :=
  { gname := "seg_preproc"
    nodes :=
      [SegPreproc.inputNode, SegPreproc.inputnode_csf_threshold,
       SegPreproc.inputnode_wm_threshold, SegPreproc.inputnode_gm_threshold,
       SegPreproc.outputNode, SegPreproc.segment,
       SegPreproc.csf_t1_to_native, SegPreproc.csf_mni_to_native,
       SegPreproc.wm_mni_to_native, SegPreproc.overlap_csf_with_prior,
       SegPreproc.binarize_threshold_csf, SegPreproc.csf_mask,
       SegPreproc.overlap_wm_with_prior, SegPreproc.binarize_threshold_wm,
       SegPreproc.wm_t1_to_native, SegPreproc.wm_mask,
       SegPreproc.gm_t1_to_native, SegPreproc.binarize_threshold_gm,
       SegPreproc.gm_mni_to_native, SegPreproc.overlap_gm_with_prior,
       SegPreproc.gm_mask]
    edges :=
      [pe1 "inputspec" "brain" "segment" "in_files",
       pe2 "segment" "probability_maps" "pick_wm_0" "csf_t1_to_native" "in_file",
       pe1 "inputspec" "example_func" "csf_t1_to_native" "reference",
       pe1 "inputspec" "highres2example_func_mat" "csf_t1_to_native" "in_matrix_file",
       pe1 "inputspec" "example_func" "csf_mni_to_native" "ref_file",
       pe1 "inputspec" "stand2highres_warp" "csf_mni_to_native" "field_file",
       pe1 "inputspec" "PRIOR_CSF" "csf_mni_to_native" "in_file",
       pe1 "inputspec" "highres2example_func_mat" "csf_mni_to_native" "postmat",
       pe1 "csf_t1_to_native" "out_file" "overlap_csf_with_prior" "in_file",
       pe1 "csf_mni_to_native" "out_file" "overlap_csf_with_prior" "operand_files",
       pe1 "overlap_csf_with_prior" "out_file" "binarize_threshold_csf" "in_file",
       pe2 "csf_threshold" "csf_threshold" "form_threshold_string"
           "binarize_threshold_csf" "op_string",
       pe1 "binarize_threshold_csf" "out_file" "csf_mask" "in_file",
       pe1 "inputspec" "preprocessed_mask" "csf_mask" "operand_files",
       pe2 "segment" "probability_maps" "pick_wm_2" "wm_t1_to_native" "in_file",
       pe1 "inputspec" "example_func" "wm_t1_to_native" "reference",
       pe1 "inputspec" "highres2example_func_mat" "wm_t1_to_native" "in_matrix_file",
       pe1 "inputspec" "example_func" "wm_mni_to_native" "ref_file",
       pe1 "inputspec" "stand2highres_warp" "wm_mni_to_native" "field_file",
       pe1 "inputspec" "PRIOR_WHITE" "wm_mni_to_native" "in_file",
       pe1 "inputspec" "highres2example_func_mat" "wm_mni_to_native" "postmat",
       pe1 "wm_t1_to_native" "out_file" "overlap_wm_with_prior" "in_file",
       pe1 "wm_mni_to_native" "out_file" "overlap_wm_with_prior" "operand_files",
       pe1 "overlap_wm_with_prior" "out_file" "binarize_threshold_wm" "in_file",
       pe2 "wm_threshold" "wm_threshold" "form_threshold_string"
           "binarize_threshold_wm" "op_string",
       pe1 "binarize_threshold_wm" "out_file" "wm_mask" "in_file",
       pe1 "inputspec" "preprocessed_mask" "wm_mask" "operand_files",
       pe2 "segment" "probability_maps" "pick_wm_1" "gm_t1_to_native" "in_file",
       pe1 "inputspec" "example_func" "gm_t1_to_native" "reference",
       pe1 "inputspec" "highres2example_func_mat" "gm_t1_to_native" "in_matrix_file",
       pe1 "inputspec" "example_func" "gm_mni_to_native" "ref_file",
       pe1 "inputspec" "stand2highres_warp" "gm_mni_to_native" "field_file",
       pe1 "inputspec" "PRIOR_GRAY" "gm_mni_to_native" "in_file",
       pe1 "inputspec" "highres2example_func_mat" "gm_mni_to_native" "postmat",
       pe1 "gm_t1_to_native" "out_file" "overlap_gm_with_prior" "in_file",
       pe1 "gm_mni_to_native" "out_file" "overlap_gm_with_prior" "operand_files",
       pe1 "overlap_gm_with_prior" "out_file" "binarize_threshold_gm" "in_file",
       pe2 "gm_threshold" "gm_threshold" "form_threshold_string"
           "binarize_threshold_gm" "op_string",
       pe1 "binarize_threshold_gm" "out_file" "gm_mask" "in_file",
       pe1 "inputspec" "preprocessed_mask" "gm_mask" "operand_files",
       pe1 "segment" "probability_maps" "outputspec" "probability_maps",
       pe1 "segment" "mixeltype" "outputspec" "mixeltype",
       pe1 "segment" "partial_volume_files" "outputspec" "partial_volume_files",
       pe1 "segment" "partial_volume_map" "outputspec" "partial_volume_map",
       pe1 "csf_t1_to_native" "out_file" "outputspec" "csf_t12func",
       pe1 "csf_mni_to_native" "out_file" "outputspec" "csf_mni2func",
       pe1 "overlap_csf_with_prior" "out_file" "outputspec" "csf_combo",
       pe1 "binarize_threshold_csf" "out_file" "outputspec" "csf_bin",
       pe1 "csf_mask" "out_file" "outputspec" "csf_mask",
       pe1 "inputspec" "preprocessed_mask" "outputspec" "global_mask",
       pe1 "wm_t1_to_native" "out_file" "outputspec" "wm_t12func",
       pe1 "wm_mni_to_native" "out_file" "outputspec" "wm_mni2func",
       pe1 "overlap_wm_with_prior" "out_file" "outputspec" "wm_combo",
       pe1 "binarize_threshold_wm" "out_file" "outputspec" "wm_bin",
       pe1 "wm_mask" "out_file" "outputspec" "wm_mask",
       pe1 "gm_t1_to_native" "out_file" "outputspec" "gm_t12func",
       pe1 "gm_mni_to_native" "out_file" "outputspec" "gm_mni2func",
       pe1 "overlap_gm_with_prior" "out_file" "outputspec" "gm_combo",
       pe1 "binarize_threshold_gm" "out_file" "outputspec" "gm_bin",
       pe1 "gm_mask" "out_file" "outputspec" "gm_mask"] }

namespace SCA

/-! Embedding of `create_sca(extraction_space)` from `CPAC/sca/sca.py`
(lines 209-355), node by node and connect call by connect call. -/

def inputNode : PNode :=
  idNode "inputspec"
    ["ref", "premat", "postmat", "rest_res_filt", "fieldcoeff_file",
     "rest_mask2standard", "standard"]

def inputnode_fwhm : PNode := idNode "fwhm_input" ["fwhm"]

def inputnode_seed_list : PNode := idNode "seed_list_input" ["seed_list"]

def outputNode : PNode :=
  idNode "outputspec"
    ["correlations", "Z_trans_correlations", "Z_FWHM", "Z_2standard",
     "Z_2standard_FWHM"]

/-- Node `pe.MapNode(util.Function(... function=pToFile), ...)`. -/
def printToFile : PNode :=
  ⟨"print_timeseries_to_file", "util.Function.pToFile", [], [],
   true, ["time_series"]⟩

def warp_to_native : PNode :=
  ⟨"warp_to_native", "fsl.ApplyWarp", [], [("interp", "nn")],
   true, ["ref_file", "postmat"]⟩

def warp : PNode :=
  ⟨"warp_to_standard", "fsl.ApplyWarp", [], [], true, ["in_file", "premat"]⟩

def warp_filt : PNode := warp.clone "warp_to_standard_input_functional"

def time_series : PNode :=
  ⟨"time_series", "afni.ROIStats", [],
   [("quiet", "True"), ("mask_f2short", "True")], true, ["in_file"]⟩

def corr : PNode :=
  ⟨"corr", "afni.Fim", [], [("fim_thr", "0.0009"), ("out", "Correlation")],
   true, ["in_file", "ideal_file"]⟩

/-- The Python source sets `expr` to the shell-quoted string
`log((1+a)/(1-a))/2`; we record the expression without the quoting. -/
def z_trans : PNode :=
  ⟨"z_trans", "e_afni.Threedcalc", [], [("expr", "log((1+a)/(1-a))/2")],
   true, ["infile_a"]⟩

/-- Created at line 277 of the source and never connected in either
mode. -/
def register : PNode :=
  ⟨"register", "fsl.ApplyWarp", [], [], true, ["premat", "in_file"]⟩

def smooth : PNode :=
  ⟨"smooth", "fsl.MultiImageMaths", [], [], true, ["in_file", "operand_files"]⟩

def smooth_mni : PNode := smooth.clone "smooth_mni"

/-- The `rsfc.connect` calls issued inside `if extraction_space ==
'native':` (source lines 290-308). -/
def nativeEdges : List PEdge :=
  [pe1 "inputspec" "ref" "warp_to_native" "ref_file",
   pe1 "inputspec" "fieldcoeff_file" "warp_to_native" "field_file",
   pe1 "inputspec" "postmat" "warp_to_native" "postmat",
   pe1 "seed_list_input" "seed_list" "warp_to_native" "in_file",
   pe1 "inputspec" "rest_res_filt" "time_series" "in_file",
   pe1 "warp_to_native" "out_file" "time_series" "mask",
   pe1 "time_series" "stats" "print_timeseries_to_file" "time_series",
   pe1 "print_timeseries_to_file" "ts_oneD" "corr" "ideal_file",
   pe1 "inputspec" "rest_res_filt" "corr" "in_file"]

/-- The `rsfc.connect` calls issued in the `else:` branch (source lines
310-327). -/
def mniEdges : List PEdge :=
  [pe1 "inputspec" "rest_res_filt" "warp_to_standard_input_functional" "in_file",
   pe1 "inputspec" "standard" "warp_to_standard_input_functional" "ref_file",
   pe1 "inputspec" "fieldcoeff_file" "warp_to_standard_input_functional" "field_file",
   pe1 "inputspec" "premat" "warp_to_standard_input_functional" "premat",
   pe1 "warp_to_standard_input_functional" "out_file" "time_series" "in_file",
   pe1 "time_series" "stats" "print_timeseries_to_file" "time_series",
   pe1 "seed_list_input" "seed_list" "time_series" "mask",
   pe1 "print_timeseries_to_file" "ts_oneD" "corr" "ideal_file",
   pe1 "inputspec" "rest_res_filt" "corr" "in_file"]

/-- The `rsfc.connect` calls issued after the branch, in both modes
(source lines 329-353); `set_gauss` is the transform passed as
`('fwhm', set_gauss)`. -/
def commonEdges : List PEdge :=
  [pe1 "corr" "out_file" "z_trans" "infile_a",
   pe1 "z_trans" "out_file" "warp_to_standard" "in_file",
   pe1 "inputspec" "standard" "warp_to_standard" "ref_file",
   pe1 "inputspec" "fieldcoeff_file" "warp_to_standard" "field_file",
   pe1 "inputspec" "premat" "warp_to_standard" "premat",
   pe1 "warp_to_standard" "out_file" "smooth_mni" "in_file",
   pe2 "fwhm_input" "fwhm" "set_gauss" "smooth_mni" "op_string",
   pe1 "inputspec" "rest_mask2standard" "smooth_mni" "operand_files",
   pe1 "smooth_mni" "out_file" "outputspec" "Z_FWHM",
   pe1 "corr" "out_file" "outputspec" "correlations",
   pe1 "z_trans" "out_file" "outputspec" "Z_trans_correlations"]

end SCA

/-- The workflow built by `create_sca(extraction_space)`: every node
created in the function body (creation order) and every
`rsfc.connect(...)` call, branching on `extraction_space == 'native'`
exactly as the source does. -/
def createSCA (extraction_space : String) : PGraph :=
  { gname := "sca_workflow"
    nodes :=
      [SCA.inputNode, SCA.inputnode_fwhm, SCA.inputnode_seed_list,
       SCA.outputNode, SCA.printToFile, SCA.warp_to_native, SCA.warp,
       SCA.warp_filt, SCA.time_series, SCA.corr, SCA.z_trans,
       SCA.register, SCA.smooth, SCA.smooth_mni]
    edges :=
      (if extraction_space == "native" then SCA.nativeEdges
       else SCA.mniEdges) ++ SCA.commonEdges }

/-- The graph built by `create_sca("native")`. -/
def scaNative : PGraph := createSCA "native"

/-- The graph built by `create_sca("mni")`. -/
def scaMni : PGraph := createSCA "mni"

/-- Modelled from the spec: the channel-selection functions
`pick_wm_0`, `pick_wm_1`, `pick_wm_2` (defined in the `CPAC.seg_preproc`
utility module, which is not under `src/`) select a fixed channel of the
segmentation's multi-channel probability-map list; per the spec the
indexing convention is 0 = CSF, 1 = GM, 2 = WM, and `pick_wm_k` returns
element `k`. -/
def pickChannel : String → Option Nat := fun fn =>
  if fn == "pick_wm_0" then some 0
  else if fn == "pick_wm_1" then some 1
  else if fn == "pick_wm_2" then some 2
  else none

/-- Structural isomorphism of two built graphs: same node list (hence
same node count) and same edge topology. -/
def structIso (g₁ g₂ : PGraph) : Prop :=
  g₁.nodes = g₂.nodes ∧ g₁.edges = g₂.edges

/-- The producing node feeding input port `p` of node `n`, when that
port is connected. -/
def srcOfPort (g : PGraph) (n p : String) : Option String :=
  (edgesIntoPort g n p).head?.map (fun e => e.src)

/-- Modelled from the spec: element-count semantics of the external
workflow engine (spec section 3).  An `IdentityInterface` input node
carries the list of values the caller assigns (given by `inputLen`); a
`MapNode` expands into one invocation per element of the sequences
arriving at its iterated input ports, producing an output sequence of
that length (we take the largest count over its iterated ports; an
unconnected iterated port holds a single construction-time value); any
other node produces a single output.  Pure transform functions on edges
(the repository utility functions `pToFile` and `set_gauss`, not under
`src/`) are element-wise and preserve counts. -/
def outCountAux (g : PGraph) (inputLen : String → Nat) :
    Nat → String → Nat
  | 0, _ => 1
  | k + 1, n =>
      match g.nodes.find? (fun nd => nd.name == n) with
      | none => 1
      | some nd =>
          if nd.tool == "IdentityInterface" then inputLen n
          else if nd.isMapNode then
            (nd.iterfield.map (fun p =>
               match srcOfPort g n p with
               | some s => outCountAux g inputLen k s
               | none => 1)).foldr Nat.max 1
          else 1

/-- Number of elements carried by the output ports of node `n` under
the modelled engine semantics. -/
def outCount (g : PGraph) (inputLen : String → Nat) (n : String) : Nat :=
  outCountAux g inputLen (g.nodes.length + 1) n

/-- Input list lengths for the correlation workflow: the seed list has
`nSeeds` elements, the smoothing-kernel-width list `nFwhm` elements,
and every other graph input is a single file or scalar. -/
def scaInputLen (nSeeds nFwhm : Nat) : String → Nat := fun n =>
  if n == "seed_list_input" then nSeeds
  else if n == "fwhm_input" then nFwhm
  else 1

/-- Element count on the final smoothed-output port (`smooth_mni`,
which feeds `outputspec.Z_FWHM`) of the graph built by
`create_sca(mode)`, for a seed list of length `nSeeds` and a
kernel-width list of length `nFwhm`. -/
def smoothedOutCount (mode : String) (nSeeds nFwhm : Nat) : Nat :=
  outCount (createSCA mode) (scaInputLen nSeeds nFwhm) "smooth_mni"

namespace ModelConfig

/-! Embedding of the configuration-file serializer (`ModelConfig.save`,
`modelconfig_window.py` lines 275-291) and the field validator
(`ModelConfig.validate`, lines 176-221). -/

/-- Python values that the serializer can write: plain strings, lists,
and results of `ast.literal_eval` or the substitution map that we leave
as unanalysed values. -/
inductive PyVal
  | pstr : String → PyVal
  | plist : List PyVal → PyVal
  | pother : String → PyVal
deriving Repr

/-- Iteration of the Python list comprehension
`[v for v in ast.literal_eval(item[1])]`: on a list value this is the
identity on its elements. -/
def pyElems : PyVal → List PyVal
  | .plist xs => xs
  | v => [v]

/-- One `(name, value, dtype, help)` tuple of `config_list` as built in
`ModelConfig.save`: the control's name, its current value as a string
(`str(ctrl.get_selection())`), its declared type code, and its help
text. -/
structure ConfigItem where
  cname : String
  cvalue : String
  cdtype : Nat
  chelp : String
deriving Repr, DecidableEq

/-- Semantics of a Python 2 `print >> f, a1, a2, ...` statement: the
arguments separated by single spaces, followed by the terminating
newline. -/
def pyPrintLine : List String → String
  | [] => "\n"
  | [a] => a ++ "\n"
  | a :: rest => a ++ " " ++ pyPrintLine rest

/-- The characters written for the help text of one field: the loop
`for lines in item[3].split(chr(10)): print >> f, "#", lines`. -/
def writeComments (helpText : String) : String :=
  String.join ((helpText.splitOn "\n").map (fun l => pyPrintLine ["#", l]))

/-- The characters `ModelConfig.save` writes to the opened file for
`config_list = items`, translated statement by statement: per item the
`if item[2] == 2 / elif 5 / elif 4 / else` chain computes the value,
then the help lines are written, then
`print >> f, item[0], ": ", value, chr(10)`.  The substitution map and
`ast.literal_eval` (imported from modules not under `src/`) are the
abstract parameters `samp` and `lev`, and `render` is Python's `str`
conversion applied by `print`. -/
def saveWrites (samp : String → Option PyVal) (lev : String → PyVal)
    (render : PyVal → String) : List ConfigItem → String
  | [] => ""
  | it :: rest =>
      let value : PyVal :=
        if it.cdtype == 2 then
          match samp it.cvalue with
          | some w => w
          | none => lev it.cvalue
        else if it.cdtype == 5 then
          .plist (pyElems (lev it.cvalue))
        else if it.cdtype == 4 then
          .plist (((it.cvalue.splitOn ",").map
                     (fun v => PyVal.pstr v.trim)))
        else .pstr it.cvalue
      writeComments it.chelp
        ++ pyPrintLine [it.cname, ": ", render value, "\n"]
        ++ saveWrites samp lev render rest

/-- Value written for one field, stated as the claim states it: the
substitution-map alias or the Python-literal evaluation for type code
2, a Python-literal-evaluated list for type code 5, the comma-split
stripped string list for type code 4, and the bare string otherwise. -/
def specFieldValue (samp : String → Option PyVal) (lev : String → PyVal)
    (it : ConfigItem) : PyVal :=
  match it.cdtype with
  | 2 => match samp it.cvalue with
         | some w => w
         | none => lev it.cvalue
  | 5 => .plist (pyElems (lev it.cvalue))
  | 4 => .plist ((it.cvalue.splitOn ",").map (fun v => PyVal.pstr v.trim))
  | _ => .pstr it.cvalue

/-- Lines of the output file as the claim describes them, per field:
each line of the field's help text prefixed with the comment marker,
then one assignment line holding the key, a colon, two spaces and the
rendered value (the serializer also leaves a trailing space and a blank
separator line after each assignment). -/
def specFieldLines (samp : String → Option PyVal) (lev : String → PyVal)
    (render : PyVal → String) (it : ConfigItem) : List String :=
  (it.chelp.splitOn "\n").map (fun l => "# " ++ l)
    ++ [it.cname ++ " :  " ++ render (specFieldValue samp lev it) ++ " ", ""]

/-- Whole-file contents described by the claim: the per-field blocks
concatenated, one terminating newline per line. -/
def specSaveText (samp : String → Option PyVal) (lev : String → PyVal)
    (render : PyVal → String) (items : List ConfigItem) : String :=
  String.join ((items.flatMap (specFieldLines samp lev render)).map
    (fun l => l ++ "\n"))

/-- Either kind of exception the validator's body can raise: the
`TypeError` from subscripting the `None` that `dict.get` returns for a
missing key, and the `ValueError` raised by `display` or by `int()`. -/
inductive PyErr
  | typeErr
  | valueErr
deriving Repr, DecidableEq

/-- One entry of `config_map`: key, current value string (`val[1]`) and
the control's validation flag (`val[2]`); the window object `val[0]` is
only passed to the message dialog and is not modelled. -/
structure CMEntry where
  key : String
  value : String
  validation : Bool
deriving Repr, DecidableEq

/-- Lookup in `config_map` (a Python dict keyed by unique control
names). -/
def cmLookup (cm : List CMEntry) (k : String) : Option CMEntry :=
  cm.find? (fun e => e.key == k)

/-- Expression `config_map.get(k)[1]`: subscripting the `None` returned
for a missing key raises a `TypeError`. -/
def getVal (cm : List CMEntry) (k : String) : Except PyErr String :=
  match cmLookup cm k with
  | some e => .ok e.value
  | none => .error .typeErr

/-- Behaviour of `self.display(win, msg)`: it shows a modal dialog,
recolours the control and then always executes `raise ValueError`. -/
def display : Except PyErr Unit := .error .valueErr

/-- Conversion `int(s)` of Python: optional surrounding whitespace, an
optional sign, then decimal digits; anything else raises. -/
def pyInt (s : String) : Option Int :=
  let t := s.trim
  let (sign, digs) :=
    if t.startsWith "-" then ((-1 : Int), t.drop 1)
    else if t.startsWith "+" then ((1 : Int), t.drop 1)
    else ((1 : Int), t)
  if digs.length == 0 || !(digs.data.all Char.isDigit) then none
  else some (sign * (digs.data.foldl
    (fun a c => a * 10 + ((c.toNat : Int) - 48)) (0 : Int)))

/-- List comprehension `[int(v) for v in val[1].split(",")]`: the first
failing conversion raises a `ValueError`. -/
def pyIntList (v : String) : Except PyErr (List Int) :=
  match (v.splitOn ",").mapM pyInt with
  | some l => .ok l
  | none => .error .valueErr

/-- Loop `for v in value: if v not in [1, 0]: display(...)`. -/
def checkBinary : List Int → Except PyErr Unit
  | [] => .ok ()
  | x :: rest =>
      if x == 1 || x == 0 then checkBinary rest
      else display

/-- The slash character tested by `if '/' in val[1]`. -/
def slashChar : Char := Char.ofNat 47

/-- Statement `if key != 'groupingVariable' and len(val[1]) == 0:
display(...)` (lines 190-191). -/
def checkEmpty (k v : String) : Except PyErr Unit :=
  if k != "groupingVariable" && v.length == 0 then display else .ok ()

/-- Statement `if '/' in val[1] and val[2]: if not os.path.exists(...):
display(...)` (lines 193-196). -/
def checkPath (pexists : String → Bool) (v : String) (b : Bool) :
    Except PyErr Unit :=
  if v.contains slashChar && b then
    if !(pexists v) then display else .ok ()
  else .ok ()

/-- Statements for the categorical and demean lists (lines 198-207):
convert every comma-separated entry with `int`, reject entries other
than 1 and 0, and reject a length differing from the model columns. -/
def checkCat (columns : List String) (k v : String) : Except PyErr Unit :=
  if k == "categoricalVsDirectional" || k == "deMean" then do
    let ints ← pyIntList v
    checkBinary ints
    if ints.length != columns.length then display else .ok ()
  else .ok ()

/-- Statements for the grouping variable (lines 209-216): when separate
group variances are on, the grouping value must be non-empty and must
name a model column. -/
def checkGrouping (columns : List String) (cm : List CMEntry) (k v : String) :
    Except PyErr Unit :=
  if k == "groupingVariable" then do
    let m ← getVal cm "modelGroupVariancesSeparately"
    if m == "On" then do
      if v.length == 0 then display else .ok ()
      if !(columns.contains v) then display else .ok ()
    else .ok ()
  else .ok ()

/-- Checks `validate` performs for one `config_map` entry (the body of
`for key, val in config_map.iteritems():`, lines 188-216), in source
order; a failing check raises through `display` and skips the rest. -/
def checkEntry (pexists : String → Bool) (columns : List String)
    (cm : List CMEntry) (k v : String) (b : Bool) : Except PyErr Unit := do
  checkEmpty k v
  checkPath pexists v b
  checkCat columns k v
  checkGrouping columns cm k v

/-- Sequencing of the per-entry checks over all of `config_map`. -/
def validateLoop (pexists : String → Bool) (columns : List String)
    (cm : List CMEntry) : List CMEntry → Except PyErr Unit
  | [] => .ok ()
  | e :: rest => do
      checkEntry pexists columns cm e.key e.value e.validation
      validateLoop pexists columns cm rest

/-- Body of the `try:` block of `ModelConfig.validate` (lines 178-218):
split the model columns, run the empty-columns guard (whose `display`
raises before the `return -1` that follows it), iterate the per-entry
checks, and finally `return 1`.  `pexists` abstracts
`os.path.exists`. -/
def validateBody (pexists : String → Bool) (cm : List CMEntry) :
    Except PyErr Int := do
  let colRaw ← getVal cm "columnsInModel"
  let columns := (colRaw.splitOn ",").map (fun s => s.trim)
  if columns.isEmpty then
    display
    return -1
  validateLoop pexists columns cm cm
  return 1

/-- Method `ModelConfig.validate`: the `try` body with the catch-all
`except Exception: return -1`. -/
def validate (pexists : String → Bool) (cm : List CMEntry) : Int :=
  match validateBody pexists cm with
  | .ok r => r
  | .error _ => -1

/-- One entry passes all of `validate`'s checks (stated from the
claim): non-empty unless it is the grouping variable; an existing path
when the value is path-like and the control is validated; for the
categorical and demean lists, integer entries that are all 0 or 1 and
as many as the model columns; and, when separate group variances are
on, a non-empty grouping variable naming a model column (requiring the
`modelGroupVariancesSeparately` entry to exist). -/
def entryOk (pexists : String → Bool) (columns : List String)
    (cm : List CMEntry) (k v : String) (b : Bool) : Bool :=
  (k == "groupingVariable" || v.length != 0)
  && (!(v.contains slashChar) || !b || pexists v)
  && (if k == "categoricalVsDirectional" || k == "deMean" then
        match (v.splitOn ",").mapM pyInt with
        | none => false
        | some ints =>
            ints.all (fun x => x == 1 || x == 0)
              && ints.length == columns.length
      else true)
  && (if k == "groupingVariable" then
        match cmLookup cm "modelGroupVariancesSeparately" with
        | none => false
        | some m =>
            if m.value == "On" then
              v.length != 0 && columns.contains v
            else true
      else true)

/-- Every check of `validate` passes on `cm`: the model-columns entry
exists and splits to a non-empty list, and every entry passes its
per-entry checks. -/
def checksPass (pexists : String → Bool) (cm : List CMEntry) : Bool :=
  match cmLookup cm "columnsInModel" with
  | none => false
  | some e =>
      let columns := (e.value.splitOn ",").map (fun s => s.trim)
      !columns.isEmpty
        && cm.all (fun en => entryOk pexists columns cm en.key en.value
                               en.validation)

end ModelConfig

/-- Names of the nodes that take part in the built workflow, i.e. occur
as an endpoint of some connect call (nipype adds a node to the workflow
when it is first connected). -/
def activeNodeNames (g : PGraph) : List String :=
  ((g.edges.map (fun e => e.src)) ++ (g.edges.map (fun e => e.dst))).dedup

/-- The CSF processing branch of the segmentation workflow. -/
def csfBranch : List String :=
  ["csf_t1_to_native", "csf_mni_to_native", "overlap_csf_with_prior",
   "binarize_threshold_csf", "csf_mask"]

/-- The white-matter processing branch of the segmentation workflow. -/
def wmBranch : List String :=
  ["wm_t1_to_native", "wm_mni_to_native", "overlap_wm_with_prior",
   "binarize_threshold_wm", "wm_mask"]

/-- The gray-matter processing branch of the segmentation workflow. -/
def gmBranch : List String :=
  ["gm_t1_to_native", "gm_mni_to_native", "overlap_gm_with_prior",
   "binarize_threshold_gm", "gm_mask"]

/-- No edge of `g` runs between the two node sets, in either
direction. -/
def noCrossEdges (g : PGraph) (a b : List String) : Bool :=
  g.edges.all (fun e =>
    !((a.contains e.src && b.contains e.dst)
      || (b.contains e.src && a.contains e.dst)))

/-- The shared (non-branch) nodes of the segmentation workflow: its
input-spec nodes, the output-spec node, and the segmentation node. -/
def segSharedNodes : List String :=
  ["inputspec", "csf_threshold", "wm_threshold", "gm_threshold",
   "outputspec", "segment"]

/-- Active nodes of the segmentation workflow other than the shared
ones: these are exactly the tissue-branch nodes. -/
def segProcessingNodes : List String :=
  (activeNodeNames createSegPreproc).filter
    (fun n => !(segSharedNodes.contains n))

/-- Registration nodes (linear FLIRT or nonlinear ApplyWarp) of `g`
upstream of node `n`, with their tools. -/
def regNodesUpstream (g : PGraph) (n : String) : List (String × String) :=
  (g.nodes.filter (fun nd =>
     (nd.tool == "fsl.FLIRT" || nd.tool == "fsl.ApplyWarp")
       && isUpstream g nd.name n)).map (fun nd => (nd.name, nd.tool))

/-- Masking nodes (MultiImageMaths) of `g` that receive an edge from
both named nodes: the convergence points of the two registration
outputs. -/
def maskConvergence (g : PGraph) (a b : String) : List String :=
  (g.nodes.filter (fun nd =>
     nd.tool == "fsl.MultiImageMaths"
       && (edgesIntoNode g nd.name).any (fun e => e.src == a)
       && (edgesIntoNode g nd.name).any (fun e => e.src == b))).map
    (fun nd => nd.name)

/-- Successors of `n` other than the output-spec exposure node. -/
def procSuccs (g : PGraph) (n : String) : List String :=
  (succsOf g n).filter (fun m => m != "outputspec")

/-- C1: the graph returned by `create_seg_preproc` contains exactly one
segmentation node (`segment`, wrapping `fsl.FAST`), whose single
upstream edge comes from the anatomical-image input port
`inputspec.brain`; it has exactly three independent tissue branches
(CSF, GM, WM) — they cover all non-shared active nodes and no edge
crosses between two branches — and the CSF branch consumes channel 0,
the GM branch channel 1 and the WM branch channel 2 of the
segmentation's multi-channel `probability_maps` output, via the channel
selectors `pick_wm_0`, `pick_wm_1`, `pick_wm_2`. -/
theorem seg_one_segmentation_node_three_tissue_channels :
    (createSegPreproc.nodes.filter (fun nd => nd.tool == "fsl.FAST")).map
        (fun nd => nd.name) = ["segment"]
    ∧ edgesIntoNode createSegPreproc "segment"
        = [pe1 "inputspec" "brain" "segment" "in_files"]
    ∧ edgesIntoPort createSegPreproc "csf_t1_to_native" "in_file"
        = [pe2 "segment" "probability_maps" "pick_wm_0"
             "csf_t1_to_native" "in_file"]
    ∧ pickChannel "pick_wm_0" = some 0
    ∧ edgesIntoPort createSegPreproc "gm_t1_to_native" "in_file"
        = [pe2 "segment" "probability_maps" "pick_wm_1"
             "gm_t1_to_native" "in_file"]
    ∧ pickChannel "pick_wm_1" = some 1
    ∧ edgesIntoPort createSegPreproc "wm_t1_to_native" "in_file"
        = [pe2 "segment" "probability_maps" "pick_wm_2"
             "wm_t1_to_native" "in_file"]
    ∧ pickChannel "pick_wm_2" = some 2
    ∧ segProcessingNodes = csfBranch ++ wmBranch ++ gmBranch
    ∧ noCrossEdges createSegPreproc csfBranch wmBranch = true
    ∧ noCrossEdges createSegPreproc csfBranch gmBranch = true
    ∧ noCrossEdges createSegPreproc wmBranch gmBranch = true :=
  ⟨rfl, rfl, rfl, rfl, rfl, rfl, rfl, rfl, rfl, rfl, rfl, rfl⟩

/-- C2: in the graph returned by `create_sca("native")` the
seed-registration node `warp_to_native` has its interpolation parameter
fixed to nearest-neighbour and lies upstream of the
time-series-extraction node, whose mask port it feeds; in the graph
returned by `create_sca("mni")` the seed-registration node takes part
in no edge at all (hence no such node is upstream of extraction) and
the seed list feeds the extraction node's mask port directly. -/
theorem sca_seed_registration_interp_by_mode :
    SCA.warp_to_native.params = [("interp", "nn")]
    ∧ isUpstream scaNative "warp_to_native" "time_series" = true
    ∧ edgesIntoPort scaNative "time_series" "mask"
        = [pe1 "warp_to_native" "out_file" "time_series" "mask"]
    ∧ isUpstream scaMni "warp_to_native" "time_series" = false
    ∧ edgesFromNode scaMni "warp_to_native" = []
    ∧ edgesIntoNode scaMni "warp_to_native" = []
    ∧ edgesFromNode scaMni "seed_list_input"
        = [pe1 "seed_list_input" "seed_list" "time_series" "mask"] :=
  ⟨rfl, rfl, rfl, rfl, rfl, rfl, rfl⟩

/-- C3 (failing-input evaluation): under the engine fan-out semantics
modelled from the spec, with a seed list of length 2 and a
kernel-width list of length 1, the final smoothed-output port of the
graph built by `create_sca` carries 1 element in both modes — not
N×M = 2 — because the seed list only ever reaches ports that are not in
any MapNode's iterated-input list (`warp_to_native.in_file` in native
mode, `time_series.mask` in mni mode). -/
theorem sca_smoothed_output_count_not_cartesian :
    smoothedOutCount "native" 2 1 = 1
    ∧ smoothedOutCount "mni" 2 1 = 1
    ∧ (1 : Nat) ≠ 2 * 1
    ∧ edgesFromNode scaNative "seed_list_input"
        = [pe1 "seed_list_input" "seed_list" "warp_to_native" "in_file"]
    ∧ SCA.warp_to_native.iterfield.contains "in_file" = false
    ∧ edgesFromNode scaMni "seed_list_input"
        = [pe1 "seed_list_input" "seed_list" "time_series" "mask"]
    ∧ SCA.time_series.iterfield.contains "mask" = false :=
  ⟨rfl, rfl, by decide, rfl, rfl, rfl, rfl⟩

/-- C4 (failing-input evaluation): in both graphs built by `create_sca`
the output-spec node declares a `Z_2standard` port, but no edge ever
enters it, and the standard-space registration node `warp_to_standard`
has no edge into the output-spec node at all: the only per-seed images
wired to output ports are the smoothed map (into `Z_FWHM`), the raw
correlation map and the Fisher-Z map — the standard-space-registered
Z-map is not exposed, although the builder's docstring lists it as a
workflow output. -/
theorem sca_registered_zmap_not_exposed :
    SCA.outputNode.fields.contains "Z_2standard" = true
    ∧ edgesIntoPort scaNative "outputspec" "Z_2standard" = []
    ∧ edgesIntoPort scaMni "outputspec" "Z_2standard" = []
    ∧ (edgesFromNode scaNative "warp_to_standard").filter
        (fun e => e.dst == "outputspec") = []
    ∧ (edgesFromNode scaMni "warp_to_standard").filter
        (fun e => e.dst == "outputspec") = []
    ∧ (edgesIntoNode scaNative "outputspec").map
        (fun e => (e.src, e.dstPort))
        = [("smooth_mni", "Z_FWHM"), ("corr", "correlations"),
           ("z_trans", "Z_trans_correlations")]
    ∧ (edgesIntoNode scaMni "outputspec").map
        (fun e => (e.src, e.dstPort))
        = [("smooth_mni", "Z_FWHM"), ("corr", "correlations"),
           ("z_trans", "Z_trans_correlations")] :=
  ⟨rfl, rfl, rfl, rfl, rfl, rfl, rfl⟩

/-- C5: in the graph returned by `create_seg_preproc`, each tissue's
final mask node is downstream of exactly two registration nodes (one
linear `fsl.FLIRT`, one nonlinear `fsl.ApplyWarp`), whose outputs
converge at exactly one masking node; that masking node is followed by
exactly one threshold node, which is followed by the final masking
node; and every path from the segmentation node's raw probability-map
output to the final mask has exactly 4 edges. -/
theorem seg_branch_structure_path_length_four :
    regNodesUpstream createSegPreproc "csf_mask"
        = [("csf_t1_to_native", "fsl.FLIRT"),
           ("csf_mni_to_native", "fsl.ApplyWarp")]
    ∧ maskConvergence createSegPreproc "csf_t1_to_native"
        "csf_mni_to_native" = ["overlap_csf_with_prior"]
    ∧ procSuccs createSegPreproc "overlap_csf_with_prior"
        = ["binarize_threshold_csf"]
    ∧ procSuccs createSegPreproc "binarize_threshold_csf" = ["csf_mask"]
    ∧ pathLens createSegPreproc "segment" "csf_mask" = [4]
    ∧ regNodesUpstream createSegPreproc "wm_mask"
        = [("wm_mni_to_native", "fsl.ApplyWarp"),
           ("wm_t1_to_native", "fsl.FLIRT")]
    ∧ maskConvergence createSegPreproc "wm_t1_to_native"
        "wm_mni_to_native" = ["overlap_wm_with_prior"]
    ∧ procSuccs createSegPreproc "overlap_wm_with_prior"
        = ["binarize_threshold_wm"]
    ∧ procSuccs createSegPreproc "binarize_threshold_wm" = ["wm_mask"]
    ∧ pathLens createSegPreproc "segment" "wm_mask" = [4]
    ∧ regNodesUpstream createSegPreproc "gm_mask"
        = [("gm_t1_to_native", "fsl.FLIRT"),
           ("gm_mni_to_native", "fsl.ApplyWarp")]
    ∧ maskConvergence createSegPreproc "gm_t1_to_native"
        "gm_mni_to_native" = ["overlap_gm_with_prior"]
    ∧ procSuccs createSegPreproc "overlap_gm_with_prior"
        = ["binarize_threshold_gm"]
    ∧ procSuccs createSegPreproc "binarize_threshold_gm" = ["gm_mask"]
    ∧ pathLens createSegPreproc "segment" "gm_mask" = [4] :=
  ⟨rfl, rfl, rfl, rfl, rfl, rfl, rfl, rfl, rfl, rfl, rfl, rfl, rfl,
   rfl, rfl⟩

/-- C6: in the graph returned by `create_sca("mni")`, the correlation
node's functional-time-series input port `in_file` is fed by the single
edge from the original native-space band-pass-filtered input
`inputspec.rest_res_filt`; the standard-space-registered copy produced
by `warp_to_standard_input_functional` feeds only the
time-series-extraction node, never the correlation node. -/
theorem sca_mni_corr_input_native :
    edgesIntoPort scaMni "corr" "in_file"
        = [pe1 "inputspec" "rest_res_filt" "corr" "in_file"]
    ∧ (edgesFromNode scaMni "warp_to_standard_input_functional").map
        (fun e => e.dst) = ["time_series"] :=
  ⟨rfl, rfl⟩

/-- C7: graph construction is deterministic and leaks no state between
invocations: two calls of `create_seg_preproc`, or of `create_sca` with
the same mode flag, denote the same pure value — in particular the two
graphs are structurally isomorphic (same node list, hence node count,
and same edge topology). -/
theorem builders_deterministic_isomorphic :
    structIso createSegPreproc createSegPreproc
    ∧ ∀ m : String, structIso (createSCA m) (createSCA m) :=
  ⟨⟨rfl, rfl⟩, fun _ => ⟨rfl, rfl⟩⟩

/-- C8: in the graph returned by `create_seg_preproc` and in the graph
returned by `create_sca` for every mode flag, each input port of each
node receives at most one incoming edge. -/
theorem graphs_single_writer :
    singleWriter createSegPreproc = true
    ∧ ∀ m : String, singleWriter (createSCA m) = true := by
  refine ⟨rfl, fun m => ?_⟩
  cases hm : m == "native" <;>
    simp only [createSCA, singleWriter, hm, Bool.false_eq_true,
      if_true, if_false] <;> rfl

end CPAC

namespace CPAC.ModelConfig

theorem isOk_ok {α : Type} (a : α) : (Except.ok a : Except PyErr α).isOk = true := rfl

theorem isOk_err {α : Type} (e : PyErr) :
    (Except.error e : Except PyErr α).isOk = false := rfl

theorem seq_isOk (x y : Except PyErr Unit) :
    (x.bind fun _ => y).isOk = (x.isOk && y.isOk) := by
  cases x <;> cases y <;> rfl


theorem bind_err {α β : Type} (e : PyErr) (f : α → Except PyErr β) :
    Except.bind (Except.error e) f = Except.error e := rfl

theorem bind_ok {α β : Type} (a : α) (f : α → Except PyErr β) :
    Except.bind (Except.ok a) f = f a := rfl

theorem checkBinary_eq (l : List Int) :
    checkBinary l = if l.all (fun x => x == 1 || x == 0) then Except.ok ()
                    else Except.error PyErr.valueErr := by
  induction l with
  | nil => rfl
  | cons x r ih =>
      cases h : (x == 1 || x == 0) with
      | true => simp [checkBinary, h, ih]
      | false => simp [checkBinary, h, display]

theorem checkEmpty_isOk (k v : String) :
    (checkEmpty k v).isOk = (k == "groupingVariable" || v.length != 0) := by
  unfold checkEmpty
  cases c : (k != "groupingVariable" && v.length == 0) with
  | true =>
      have h2 := congrArg (fun x => !x) c
      simp only [bne, Bool.not_and, Bool.not_not, Bool.not_true] at h2
      simp [c, display, isOk_err, bne, h2]
  | false =>
      have h2 := congrArg (fun x => !x) c
      simp only [bne, Bool.not_and, Bool.not_not, Bool.not_false] at h2
      simp [c, isOk_ok, bne, h2]

theorem checkPath_isOk (pexists : String → Bool) (v : String) (b : Bool) :
    (checkPath pexists v b).isOk
      = (!(v.contains slashChar) || !b || pexists v) := by
  unfold checkPath
  cases c : (v.contains slashChar && b) with
  | true =>
      rcases Bool.and_eq_true _ _ |>.mp c with ⟨hc, hb⟩
      cases p : pexists v with
      | false => simp [hc, hb, p, display, isOk_err]
      | true => simp [hc, hb, p, isOk_ok]
  | false =>
      have h2 := congrArg (fun x => !x) c
      simp only [Bool.not_and, Bool.not_false] at h2
      rcases Bool.or_eq_true _ _ |>.mp h2 with h | h <;> simp [c, h, isOk_ok]

theorem checkCat_isOk (columns : List String) (k v : String) :
    (checkCat columns k v).isOk
      = (if k == "categoricalVsDirectional" || k == "deMean" then
           match (v.splitOn ",").mapM pyInt with
           | none => false
           | some ints =>
               ints.all (fun x => x == 1 || x == 0)
                 && ints.length == columns.length
         else true) := by
  unfold checkCat
  cases c : (k == "categoricalVsDirectional" || k == "deMean") with
  | false => rfl
  | true =>
      simp only [if_true]
      cases hm : (v.splitOn ",").mapM pyInt with
      | none =>
          have hp : pyIntList v = Except.error PyErr.valueErr := by
            unfold pyIntList; rw [hm]
          simp only [hp, Bind.bind, Except.bind] <;> rfl
      | some ints =>
          have hp : pyIntList v = Except.ok ints := by
            unfold pyIntList; rw [hm]
          cases cb : ints.all (fun x => x == 1 || x == 0) with
          | false =>
              simp only [hp, Bind.bind, Except.bind, checkBinary_eq, cb] <;> rfl
          | true =>
              cases cl : (ints.length == columns.length) with
              | true =>
                  have h4 : (ints.length != columns.length) = false := by
                    simp only [bne, cl, Bool.not_true]
                  simp only [hp, Bind.bind, Except.bind, checkBinary_eq, cb,
                    h4, cl] <;> rfl
              | false =>
                  have h4 : (ints.length != columns.length) = true := by
                    simp only [bne, cl, Bool.not_false]
                  simp only [hp, Bind.bind, Except.bind, checkBinary_eq, cb,
                    h4, cl] <;> rfl

theorem checkGrouping_isOk (columns : List String) (cm : List CMEntry)
    (k v : String) :
    (checkGrouping columns cm k v).isOk
      = (if k == "groupingVariable" then
           match cmLookup cm "modelGroupVariancesSeparately" with
           | none => false
           | some m =>
               if m.value == "On" then
                 v.length != 0 && columns.contains v
               else true
         else true) := by
  unfold checkGrouping
  cases c : (k == "groupingVariable") with
  | false => rfl
  | true =>
      simp only [if_true]
      cases hl : cmLookup cm "modelGroupVariancesSeparately" with
      | none =>
          simp only [getVal, hl, Bind.bind, Except.bind] <;> rfl
      | some m =>
          simp only [getVal, hl, Bind.bind, Except.bind]
          cases hOn : (m.value == "On") with
          | false => rfl
          | true =>
              simp only [if_true]
              cases vz : (v.length == 0) with
              | true =>
                  have hb2 : (v.length != 0) = false := by
                    simp only [bne, vz, Bool.not_true]
                  simp only [hb2, Bool.false_and] <;> rfl
              | false =>
                  have hb2 : (v.length != 0) = true := by
                    simp only [bne, vz, Bool.not_false]
                  cases mem : columns.contains v with
                  | true => simp only [hb2] <;> rfl
                  | false => simp only [hb2] <;> rfl

theorem checkEntry_isOk (pexists : String → Bool) (columns : List String)
    (cm : List CMEntry) (k v : String) (b : Bool) :
    (checkEntry pexists columns cm k v b).isOk
      = entryOk pexists columns cm k v b := by
  unfold checkEntry entryOk
  simp only [bind, seq_isOk, checkEmpty_isOk, checkPath_isOk, checkCat_isOk,
    checkGrouping_isOk, Bool.and_assoc]


theorem validateLoop_isOk (pexists : String → Bool) (columns : List String)
    (cm l : List CMEntry) :
    (validateLoop pexists columns cm l).isOk
      = l.all (fun e => entryOk pexists columns cm e.key e.value
                          e.validation) := by
  induction l with
  | nil => rfl
  | cons e r ih =>
      have hE := checkEntry_isOk pexists columns cm e.key e.value e.validation
      simp only [validateLoop, List.all_cons, Bind.bind]
      cases h : checkEntry pexists columns cm e.key e.value e.validation with
      | ok u =>
          rw [h] at hE
          simp only [Except.bind, ih, ← hE, isOk_ok, Bool.true_and]
      | error er =>
          rw [h] at hE
          simp only [Except.bind, ← hE, isOk_err, Bool.false_and]

/-- C10: `ModelConfig.validate` is total and returns either 1 or -1,
never propagating an exception: every failed field check raises inside
the `try` block via `display` (and the missing-key and failed `int()`
conversions raise on their own) and is converted to -1 by the catch-all
handler, and `validate` returns 1 exactly when every check passes. -/
theorem modelconfig_validate_total (pexists : String → Bool)
    (cm : List CMEntry) :
    validate pexists cm = if checksPass pexists cm then 1 else -1 := by
  unfold validate validateBody checksPass
  cases hL : cmLookup cm "columnsInModel" with
  | none => simp only [getVal, hL, Bind.bind, Except.bind]; rfl
  | some e =>
      simp only [getVal, hL, Bind.bind, Except.bind]
      rcases Bool.eq_false_or_eq_true
          ((List.map (fun s => s.trim) (e.value.splitOn ",")).isEmpty)
        with hE | hE
      · simp only [hE, display, Bool.not_true, Bool.false_and]
        rfl
      · cases hLoop : validateLoop pexists
            (List.map (fun s => s.trim) (e.value.splitOn ",")) cm cm with
        | ok u =>
            have hall : cm.all (fun en => entryOk pexists
                (List.map (fun s => s.trim) (e.value.splitOn ",")) cm en.key
                en.value en.validation) = true := by
              rw [← validateLoop_isOk, hLoop]; rfl
            cases u
            simp only [hE, hLoop, hall, pure, Except.pure, Bool.not_false,
              Bool.true_and]
            rfl
        | error er =>
            have hall : cm.all (fun en => entryOk pexists
                (List.map (fun s => s.trim) (e.value.splitOn ",")) cm en.key
                en.value en.validation) = false := by
              rw [← validateLoop_isOk, hLoop]; rfl
            simp only [hE, hLoop, hall, pure, Except.pure, Bool.not_false,
              Bool.true_and, Bool.and_false]
            rfl


theorem join_append (a b : List String) :
    String.join (a ++ b) = String.join a ++ String.join b := by
  apply String.ext
  simp [String.join_eq, String.data_append]

theorem fieldValue_eq (samp : String → Option PyVal) (lev : String → PyVal)
    (it : ConfigItem) :
    (if it.cdtype == 2 then
       match samp it.cvalue with
       | some w => w
       | none => lev it.cvalue
     else if it.cdtype == 5 then .plist (pyElems (lev it.cvalue))
     else if it.cdtype == 4 then
       .plist (((it.cvalue.splitOn ",").map (fun v => PyVal.pstr v.trim)))
     else .pstr it.cvalue)
      = specFieldValue samp lev it := by
  rcases it with ⟨n, v, d, h⟩
  rcases d with _ | _ | _ | _ | _ | _ | d <;> rfl

theorem block_eq (samp : String → Option PyVal) (lev : String → PyVal)
    (render : PyVal → String) (it : ConfigItem) :
    writeComments it.chelp
        ++ (pyPrintLine [it.cname, ": ",
              render (specFieldValue samp lev it), "\n"])
      = String.join ((specFieldLines samp lev render it).map
          (fun l => l ++ "\n")) := by
  apply String.ext
  simp [writeComments, specFieldLines, pyPrintLine, String.join_eq,
    String.data_append, List.append_assoc, Function.comp_def]

/-- C9: for every list of `(name, value, type-code, help)` fields, the
serializer in `ModelConfig.save` writes, per field, each line of the
field's help text prefixed with the comment marker, followed by one
`key :  value` assignment line (plus a trailing space and a blank
separator line), where the written value is the substitution-map alias
or the Python-literal evaluation for type code 2, a
Python-literal-evaluated list for type code 5, the comma-split stripped
string list for type code 4, and the bare string otherwise. -/
theorem modelconfig_save_serialization (samp : String → Option PyVal)
    (lev : String → PyVal) (render : PyVal → String)
    (items : List ConfigItem) :
    saveWrites samp lev render items = specSaveText samp lev render items := by
  induction items with
  | nil => rfl
  | cons it rest ih =>
      simp only [saveWrites]
      rw [fieldValue_eq, ih]
      simp only [specSaveText, List.flatMap_cons, List.map_append, join_append]
      rw [block_eq]

end CPAC.ModelConfig
